import Mathlib

/-!
# Verification of the Excel-Processor data-quality and cleaning engine

Shallow embedding of the core logic of `src/data_processor.py`,
`src/ai_assistant_dialog.py` and `src/gui_components.py` of the
Excel-Processor repository, together with theorems checking the
natural-language specification's claims against it.

Modelling conventions:
* A pandas cell is `Cell`: a rational number, a string, or the missing
  marker (NaN).  Floats are modelled by `Rat`.
* A DataFrame is a `Table`: a list of column names plus row-major cells.
* `pd.api.types.is_numeric_dtype` holds for a column when no cell is a
  string (a float64 column may contain NaN; an object column holds strings).
* `pd.to_numeric(errors := coerce)` keeps numbers, parses numeric string
  literals (modelled for optionally signed decimal literals) and turns
  unparseable strings into the missing marker.
* Python `round(x, 2)` is modelled exactly (round half to even on the
  idealized rational value).
* `groupby` sorts group keys ascending (pandas default `sort=True`) and
  drops missing keys; `sort_values` is modelled as a stable sort, which is
  what numpy's sort performs on the small frames at issue.
* Exceptions are modelled by `Except PyError`; an `except` block that
  returns a default is modelled by `Option` / the default value.
-/

deriving instance DecidableEq for Except

attribute [local semireducible] Rat.mul Rat.add Rat.sub Rat.inv

inductive Cell where
  | num (q : Rat)
  | str (s : String)
  | missing
deriving DecidableEq, Repr

def Cell.isMissing : Cell → Bool
  | Cell.missing => true
  | _ => false

/-- Lexicographic code-point comparison of strings (the comparison
Python applies to `str` values). -/
def charListLtB : List Char → List Char → Bool
  | [], [] => false
  | [], _ :: _ => true
  | _ :: _, [] => false
  | a :: as, b :: bs =>
      if a.toNat < b.toNat then true
      else if b.toNat < a.toNat then false
      else charListLtB as bs

def strLtB (a b : String) : Bool := charListLtB a.data b.data

/-- Strict comparison used only to order group keys and break mode ties,
mirroring the ordering pandas applies to homogeneous key columns. -/
def Cell.ltB : Cell → Cell → Bool
  | Cell.num a, Cell.num b => a < b
  | Cell.num _, Cell.str _ => true
  | Cell.num _, Cell.missing => true
  | Cell.str a, Cell.str b => strLtB a b
  | Cell.str _, Cell.missing => true
  | _, _ => false

/-- Non-strict version of `Cell.ltB`, used as the group-key sort order. -/
def Cell.leB (a b : Cell) : Bool := !(Cell.ltB b a)

structure Table where
  cols : List String
  rows : List (List Cell)
deriving DecidableEq, Repr

/-- `df[col]` as a list of cells; the empty list when the column is absent. -/
def Table.getCol (t : Table) (c : String) : List Cell :=
  match t.cols.findIdx? (fun d => d == c) with
  | some i => t.rows.map (fun r => r.getD i Cell.missing)
  | none => []

/-- `pd.api.types.is_numeric_dtype`: no string cell in the column. -/
def isNumericDtype (cells : List Cell) : Bool :=
  cells.all (fun c => match c with | Cell.str _ => false | _ => true)

def countMissing (cells : List Cell) : Nat := cells.countP Cell.isMissing

/-- The numeric values of the non-missing cells (`dropna` on a numeric
column; also the values `count`/`sum` see after coercion). -/
def numericValues (cells : List Cell) : List Rat :=
  cells.filterMap (fun c => match c with | Cell.num q => some q | _ => none)

def digitsVal? (cs : List Char) : Option Nat :=
  if cs.isEmpty then none
  else cs.foldl (fun acc c => match acc with
    | none => none
    | some n => if c.isDigit then some (n * 10 + (c.toNat - 48)) else none)
    (some 0)

/-- Numeric-literal parsing (`float(s)` / `pd.to_numeric` on a string),
modelled for optionally signed decimal literals such as `"12"`, `"-3.5"`,
`".5"`; other spellings Python accepts (exponents, `inf`, underscores)
do not occur in the inputs at issue and parse to `none` here. -/
def pyFloat? (s : String) : Option Rat :=
  let core : List Char → Option Rat := fun cs =>
    match cs.splitOn '.' with
    | [intp] => (digitsVal? intp).map (fun n => (n : Rat))
    | [intp, fracp] =>
        if intp.isEmpty && fracp.isEmpty then none
        else
          let ip := if intp.isEmpty then some 0 else digitsVal? intp
          let fp := if fracp.isEmpty then some 0 else digitsVal? fracp
          match ip, fp with
          | some i, some f =>
              some ((i : Rat) + (f : Rat) / ((10 : Rat) ^ fracp.length))
          | _, _ => none
    | _ => none
  match s.data with
  | '-' :: rest => (core rest).map (fun q => -q)
  | '+' :: rest => core rest
  | cs => core cs

/-- One cell under `pd.to_numeric(col, errors := coerce)`. -/
def toNumericCell (c : Cell) : Cell :=
  match c with
  | Cell.num q => Cell.num q
  | Cell.missing => Cell.missing
  | Cell.str s =>
      match pyFloat? s with
      | some q => Cell.num q
      | none => Cell.missing

/-- `fillna v` on one cell. -/
def fillMissingCell (v : Cell) (c : Cell) : Cell :=
  if c.isMissing then v else c

/-- Python `round(x, 2)` (round half to even) on the exact rational. -/
def pyRound2 (x : Rat) : Rat :=
  let y := x * 100
  let n : Int := Rat.floor y
  let r : Rat := y - (n : Rat)
  let k : Int :=
    if 1/2 < r then n + 1
    else if r < 1/2 then n
    else if n % 2 = 0 then n else n + 1
  (k : Rat) / 100

def ratSum (l : List Rat) : Rat := l.foldl (· + ·) 0

def ratMean (l : List Rat) : Rat := ratSum l / (l.length : Rat)

/-- The order of rational values, as the sort relation of `ratMedian`. -/
def ratLeRel (a b : Rat) : Prop := a ≤ b

instance : DecidableRel ratLeRel := fun a b => Rat.instDecidableLe a b

/-- `Series.median()`: middle element, or the average of the two middle
elements, of the sorted values. -/
def ratMedian (l : List Rat) : Rat :=
  let s := l.insertionSort ratLeRel
  let n := s.length
  if n % 2 = 1 then s.getD (n / 2) 0
  else (s.getD (n / 2 - 1) 0 + s.getD (n / 2) 0) / 2

/-- `Series.mode().iloc[0]` on numeric values: the smallest value of
maximal multiplicity (pandas returns the modes sorted). `0` on `[]`. -/
def ratMode (l : List Rat) : Rat :=
  match l with
  | [] => 0
  | x :: _ =>
      l.foldl (fun best c =>
        if l.count best < l.count c ∨ (l.count best = l.count c ∧ c < best)
        then c else best) x

/-- `Series.mode().iloc[0]` on object values: the cell of maximal
multiplicity, ties broken by `Cell.ltB`. `"Unknown"` on `[]`. -/
def cellMode (l : List Cell) : Cell :=
  match l with
  | [] => Cell.str "Unknown"
  | x :: _ =>
      l.foldl (fun best c =>
        if l.count best < l.count c ∨
           (l.count best = l.count c ∧ Cell.ltB c best)
        then c else best) x

def dedupSeen {α : Type} [DecidableEq α] (seen : List α) : List α → List α
  | [] => []
  | x :: xs =>
      if seen.contains x then dedupSeen seen xs
      else x :: dedupSeen (x :: seen) xs

/-- Keep the first occurrence of every value, preserving order
(`drop_duplicates`, and the distinct values of a column in encounter
order). -/
def dedupKeepFirst {α : Type} [DecidableEq α] (l : List α) : List α :=
  dedupSeen [] l

inductive PyError where
  | zeroDivision
  | validation (msg : String)
  | emptyData (msg : String)
  | dataProcessing (msg : String)
deriving DecidableEq, Repr

def pyErrMsg : PyError → String
  | PyError.zeroDivision => "division by zero"
  | PyError.validation m => m
  | PyError.emptyData m => m
  | PyError.dataProcessing m => m

/-! ## `FlexibleDataProcessor.analyze_nan_values` (data_processor.py 12-83) -/

structure NumSuggestions where
  mean : Rat
  median : Rat
  mode : Rat
  min : Rat
  max : Rat
deriving DecidableEq, Repr

/-- `suggestions[recommended]` (dict indexing; the program only ever
indexes with one of the five keys). -/
def NumSuggestions.get (s : NumSuggestions) (key : String) : Rat :=
  if key == "mean" then s.mean
  else if key == "median" then s.median
  else if key == "mode" then s.mode
  else if key == "min" then s.min
  else s.max

structure ColNanInfo where
  count : Nat
  percentage : Rat
deriving DecidableEq, Repr

inductive Recommendation where
  | numeric (suggestions : NumSuggestions) (recommended : String)
  | categorical (mode : Cell) (uniqueValues : Nat) (recommended : String)
deriving DecidableEq, Repr

/-- The per-column recommendation of `analyze_nan_values`
(data_processor.py 31-65), for a column that has at least one NaN. -/
def colRecommendation (cells : List Cell) : Recommendation :=
  if isNumericDtype cells then
    let valid := numericValues cells
    let suggestions : NumSuggestions :=
      if 0 < valid.length then
        ⟨pyRound2 (ratMean valid), pyRound2 (ratMedian valid), ratMode valid,
          (valid.min?).getD 0, (valid.max?).getD 0⟩
      else ⟨0, 0, 0, 0, 0⟩
    Recommendation.numeric suggestions "median"
  else
    let valid := cells.filter (fun c => !c.isMissing)
    let modeValue := if 0 < valid.length then cellMode valid else Cell.str "Unknown"
    let uniqueCount := if 0 < valid.length then (dedupKeepFirst valid).length else 0
    Recommendation.categorical modeValue uniqueCount
      (if uniqueCount < 20 then "mode" else "unknown")

structure NanAnalysis where
  totalRows : Nat
  totalCells : Nat
  columnsWithNan : List (String × ColNanInfo)
  totalNanCells : Nat
  nanPercentage : Rat
  recommendations : List (String × Recommendation)
deriving DecidableEq, Repr

/-- The body of `analyze_nan_values` before its `except` clause.  The only
statement in it that can raise is the final
`total_nan_cells / total_cells` division, which divides by zero exactly
when the frame has zero cells. -/
def analyze_nan_values_inner (t : Table) : Except PyError NanAnalysis :=
  let totalCells := t.rows.length * t.cols.length
  let withNan := t.cols.filter (fun c => 0 < countMissing (t.getCol c))
  let columnsWithNan := withNan.map (fun c =>
    (c, ColNanInfo.mk (countMissing (t.getCol c))
      (pyRound2 ((countMissing (t.getCol c) : Rat) / (t.rows.length : Rat) * 100))))
  let recommendations := withNan.map (fun c => (c, colRecommendation (t.getCol c)))
  let totalNan := (withNan.map (fun c => countMissing (t.getCol c))).foldl (· + ·) 0
  if totalCells = 0 then Except.error PyError.zeroDivision
  else Except.ok
    { totalRows := t.rows.length
      totalCells := totalCells
      columnsWithNan := columnsWithNan
      totalNanCells := totalNan
      nanPercentage := pyRound2 ((totalNan : Rat) / (totalCells : Rat) * 100)
      recommendations := recommendations }

/-- `analyze_nan_values` (lines 81-83): any internal exception is caught
and the empty dict `{}` is returned; `none` models that `{}`. -/
def analyze_nan_values (t : Table) : Option NanAnalysis :=
  (analyze_nan_values_inner t).toOption

/-- `nan_analysis.get("columns_with_nan", {})`. -/
def nanColumnsWithNan : Option NanAnalysis → List (String × ColNanInfo)
  | some a => a.columnsWithNan
  | none => []

/-- `nan_analysis.get("recommendations", {})`. -/
def nanRecommendations : Option NanAnalysis → List (String × Recommendation)
  | some a => a.recommendations
  | none => []

/-! ## `FlexibleDataProcessor._get_default_nan_strategy` (lines 161-200) -/

/-- One entry of a `nan_strategy` dict: `method?` is the `"method"` key
(`strategy.get("method", "fill")` defaults it), `value?` the optional
`"value"` key. -/
structure StratEntry where
  method? : Option String
  value? : Option Cell
deriving DecidableEq, Repr

/-- The strategy entry lines 167-198 build for one column. -/
def defaultEntryFor (analysis : Option NanAnalysis) (col : String) : StratEntry :=
  match (nanColumnsWithNan analysis).lookup col with
  | some info =>
      if 50 < info.percentage then
        StratEntry.mk (some "fill") (some (Cell.str "N/A"))
      else if 20 < info.percentage then
        match (nanRecommendations analysis).lookup col with
        | some (Recommendation.numeric sugg recd) =>
            StratEntry.mk (some "fill") (some (Cell.num (sugg.get recd)))
        | _ => StratEntry.mk (some "fill") (some (Cell.str "Unknown"))
      else
        match (nanRecommendations analysis).lookup col with
        | some (Recommendation.numeric sugg recd) =>
            StratEntry.mk (some "fill") (some (Cell.num (sugg.get recd)))
        | some (Recommendation.categorical m _ _) =>
            StratEntry.mk (some "fill") (some m)
        | none => StratEntry.mk (some "fill") (some (Cell.str "Unknown"))
  | none => StratEntry.mk (some "keep") none

def get_default_nan_strategy (t : Table) (analysis : Option NanAnalysis) :
    List (String × StratEntry) :=
  t.cols.map (fun col => (col, defaultEntryFor analysis col))

/-! ## `FlexibleDataProcessor.clean_data_with_strategy` (lines 85-159) -/

/-- `df[col].fillna(v)` (modelled as replacing the missing cells of the
column, the effective behavior for a type-compatible fill value). -/
def Table.fillnaCol (t : Table) (col : String) (v : Cell) : Table :=
  match t.cols.findIdx? (fun d => d == col) with
  | some i => Table.mk t.cols
      (t.rows.map (fun r => r.set i (fillMissingCell v (r.getD i Cell.missing))))
  | none => t

/-- `df.dropna(subset := [col])`. -/
def Table.dropnaCol (t : Table) (col : String) : Table :=
  match t.cols.findIdx? (fun d => d == col) with
  | some i => Table.mk t.cols
      (t.rows.filter (fun r => !(r.getD i Cell.missing).isMissing))
  | none => t

/-- Lines 120-129: the fill value used when the strategy entry carries
none, derived from the recommendations of the pre-cleaning NaN analysis,
falling back on `0` / `"Unknown"` by dtype. -/
def resolveDefaultFill (analysis : Option NanAnalysis) (t : Table) (col : String) : Cell :=
  match (nanRecommendations analysis).lookup col with
  | some (Recommendation.numeric sugg recd) => Cell.num (sugg.get recd)
  | some (Recommendation.categorical m _ _) => m
  | none => if isNumericDtype (t.getCol col) then Cell.num 0 else Cell.str "Unknown"

/-- The body of the per-column loop (lines 113-146) for one column.
`entry.method?.getD "fill"` is `strategy.get("method", "fill")`. -/
def applyOneCol (analysis : Option NanAnalysis) (strategy : List (String × StratEntry))
    (t : Table) (col : String) : Table :=
  match strategy.lookup col with
  | none => t
  | some entry =>
      if entry.method?.getD "fill" = "fill" then
        t.fillnaCol col
          (match entry.value? with
            | some v => v
            | none => resolveDefaultFill analysis t col)
      else if entry.method?.getD "fill" = "drop" then t.dropnaCol col
      else t

/-- The body of `clean_data_with_strategy` before its `except` clause:
validation, NaN analysis, per-column steps, unconditional
`drop_duplicates`. -/
def clean_data_with_strategy_inner (t : Table)
    (strategyArg : Option (List (String × StratEntry))) : Except PyError Table :=
  if t.rows.isEmpty ∨ t.cols.isEmpty then
    Except.error (PyError.emptyData "DataFrame is empty")
  else
    let analysis := analyze_nan_values t
    let strategy := strategyArg.getD (get_default_nan_strategy t analysis)
    let cleaned := t.cols.foldl (applyOneCol analysis strategy) t
    Except.ok (Table.mk cleaned.cols (dedupKeepFirst cleaned.rows))

/-- `clean_data_with_strategy` (lines 157-159 re-raise any failure as a
`DataProcessingError`). -/
def clean_data_with_strategy (t : Table)
    (strategyArg : Option (List (String × StratEntry))) : Except PyError Table :=
  match clean_data_with_strategy_inner t strategyArg with
  | Except.ok r => Except.ok r
  | Except.error e =>
      Except.error (PyError.dataProcessing ("Advanced data cleaning failed: " ++ pyErrMsg e))

/-! ## `FlexibleDataProcessor.analyze_data_flexible` (lines 202-273) -/

/-- Lines 227-239: the measure column after the `y_nan_count > 0` block
(coercion when the dtype is not numeric, then the operation-dependent
NaN fill). -/
def preprocessY1 (op : String) (ys : List Cell) : List Cell :=
  if 0 < countMissing ys then
    if op = "sum" ∨ op = "count" then
      (if isNumericDtype ys then ys else ys.map toNumericCell).map
        (fillMissingCell (Cell.num 0))
    else (if isNumericDtype ys then ys else ys.map toNumericCell)
  else ys

/-- Lines 227-243: the full transformation applied to the measure column
before grouping (the block above, then the unconditional
convert-if-not-numeric step, whose coercion also fills with 0). -/
def preprocessY (op : String) (ys : List Cell) : List Cell :=
  if isNumericDtype (preprocessY1 op ys) then preprocessY1 op ys
  else ((preprocessY1 op ys).map toNumericCell).map (fillMissingCell (Cell.num 0))

/-- `Cell.leB` as the group-key sort relation. -/
def cellLeRel (a b : Cell) : Prop := Cell.leB a b = true

instance : DecidableRel cellLeRel := fun a b => instDecidableEqBool (Cell.leB a b) true

/-- The group keys: distinct category values sorted ascending (pandas
`groupby` with its default `sort=True`). -/
def groupKeys (pairs : List (Cell × Cell)) : List Cell :=
  (dedupKeepFirst (pairs.map Prod.fst)).insertionSort cellLeRel

def groupValues (pairs : List (Cell × Cell)) (k : Cell) : List Cell :=
  (pairs.filter (fun p => p.1 = k)).map Prod.snd

/-- The groupwise aggregate of lines 246-257; `none` is pandas' NaN
result (`mean`/`max`/`min` of an all-missing group).  All five
operations skip missing cells; an unrecognized operation falls back to
`sum` (line 257). -/
def aggregateOp (op : String) (cells : List Cell) : Option Rat :=
  let vs := numericValues cells
  if op = "sum" then some (ratSum vs)
  else if op = "mean" then (if vs.isEmpty then none else some (ratMean vs))
  else if op = "count" then some ((vs.length : Nat) : Rat)
  else if op = "max" then vs.max?
  else if op = "min" then vs.min?
  else some (ratSum vs)

/-- `sort_values(y_col, ascending := False)` order: aggregated value
descending, NaN results last; ties compare equal so a stable sort keeps
their incoming order. -/
def aggGe (a b : Cell × Option Rat) : Bool :=
  match a.2, b.2 with
  | some x, some y => y ≤ x
  | some _, none => true
  | none, some _ => false
  | none, none => true

/-- `aggGe` as the result sort relation. -/
def aggGeRel (a b : Cell × Option Rat) : Prop := aggGe a b = true

instance : DecidableRel aggGeRel := fun a b => instDecidableEqBool (aggGe a b) true

instance : IsTotal (Cell × Option Rat) aggGeRel :=
  ⟨by
    intro a b
    rcases a with ⟨ka, _ | x⟩ <;> rcases b with ⟨kb, _ | y⟩ <;>
      simp [aggGeRel, aggGe]
    exact le_total y x⟩

instance : IsTrans (Cell × Option Rat) aggGeRel :=
  ⟨by
    intro a b c hab hbc
    rcases a with ⟨ka, _ | x⟩ <;> rcases b with ⟨kb, _ | y⟩ <;>
      rcases c with ⟨kc, _ | z⟩ <;> simp_all [aggGeRel, aggGe]
    exact le_trans hbc hab⟩

/-- Lines 221-225: the category column after the conditional
`fillna("Unknown")`. -/
def aggXs1 (t : Table) (xCol : String) : List Cell :=
  let xs := t.getCol xCol
  if 0 < countMissing xs then xs.map (fillMissingCell (Cell.str "Unknown")) else xs

/-- The rows that `groupby` sees: the processed category/measure pairs,
missing group keys dropped (pandas `groupby` default `dropna=True`;
vacuous here because the category column was filled whenever it had a
missing cell). -/
def aggPairs (t : Table) (xCol yCol op : String) : List (Cell × Cell) :=
  ((aggXs1 t xCol).zip (preprocessY op (t.getCol yCol))).filter (fun p => !p.1.isMissing)

/-- The grouped, aggregated, descending-sorted result frame of lines
245-260. -/
def aggResult (t : Table) (xCol yCol op : String) : List (Cell × Option Rat) :=
  (((groupKeys (aggPairs t xCol yCol op)).map
    (fun k => (k, aggregateOp op (groupValues (aggPairs t xCol yCol op) k)))).insertionSort
    aggGeRel)

/-- The body of `analyze_data_flexible` before its `except` clause. -/
def analyze_data_flexible_inner (t : Table) (xCol yCol op : String) :
    Except PyError (List (Cell × Option Rat)) :=
  if !(t.cols.contains xCol) then
    Except.error (PyError.validation "X-axis column not found in data")
  else if !(t.cols.contains yCol) then
    Except.error (PyError.validation "Y-axis column not found in data")
  else if (aggResult t xCol yCol op).isEmpty then
    Except.error (PyError.emptyData "Analysis resulted in empty dataset")
  else Except.ok (aggResult t xCol yCol op)

/-- `analyze_data_flexible` (lines 271-273 re-raise any failure,
including the internal `EmptyDataError`, as a `DataProcessingError`). -/
def analyze_data_flexible (t : Table) (xCol yCol op : String) :
    Except PyError (List (Cell × Option Rat)) :=
  match analyze_data_flexible_inner t xCol yCol op with
  | Except.ok r => Except.ok r
  | Except.error e =>
      Except.error (PyError.dataProcessing ("Flexible analysis failed: " ++ pyErrMsg e))

/-! ## `DataQualityAssessment` (ai_assistant_dialog.py) -/

structure Issue where
  kind : String
  severity : String
deriving DecidableEq, Repr

/-- `null_percentage` of `_analyze_column` (lines 41-43): percentage of
missing cells, `0` for an empty column. -/
def nullPercentage (cells : List Cell) : Rat :=
  if cells.length = 0 then 0
  else (countMissing cells : Rat) / (cells.length : Rat) * 100

/-- The missing-value issues `_analyze_column` appends (lines 86-106).
The outlier issues of lines 60-71 are produced independently earlier in
the function and are not missing-related. -/
def missingIssues (cells : List Cell) : List Issue :=
  if 50 < nullPercentage cells then [Issue.mk "high_missing" "critical"]
  else if 20 < nullPercentage cells then [Issue.mk "medium_missing" "medium"]
  else if 0 < nullPercentage cells then [Issue.mk "low_missing" "low"]
  else []

def countSeverity (issues : List Issue) (s : String) : Nat :=
  (issues.filter (fun i => i.severity == s)).length

/-- `_calculate_quality_score` (lines 116-138); the DataFrame argument is
used only through its row and column counts. -/
def calculate_quality_score (nanPercentage : Rat) (issues : List Issue)
    (nRows nCols : Nat) : Rat :=
  let s1 : Rat :=
    if 50 < nanPercentage then 1 - 0.5
    else if 20 < nanPercentage then 1 - 0.3
    else if 5 < nanPercentage then 1 - 0.1
    else 1
  let s2 := s1 - (countSeverity issues "critical" : Rat) * 0.2
  let s3 := s2 - (countSeverity issues "medium" : Rat) * 0.1
  let s4 := if 1000 < nRows then s3 + 0.05 else s3
  let s5 := if 5 < nCols then s4 + 0.05 else s4
  max 0 (min 1 s5)

/-! ## `get_nan_strategy` (gui_components.py 778-821) -/

/-- Lines 790-817: the fill value derived from the user's fill
sub-strategy, the custom text field, and the column's recommendation. -/
def resolveFillValue (fillMethod : String) (customText : String)
    (rec : Option Recommendation) : Cell :=
  match rec with
  | some (Recommendation.numeric sugg _) =>
      if fillMethod = "median" then Cell.num sugg.median
      else if fillMethod = "mean" then Cell.num sugg.mean
      else if fillMethod = "mode" then Cell.num sugg.mode
      else if fillMethod = "zero" then Cell.num 0
      else if fillMethod = "unknown" then Cell.str "Unknown"
      else if fillMethod = "empty" then Cell.str ""
      else if fillMethod = "custom" then
        match pyFloat? customText with
        | some q => Cell.num q
        | none => Cell.num 0
      else Cell.str "Unknown"
  | some (Recommendation.categorical m _ _) =>
      if fillMethod = "mode" then m
      else if fillMethod = "zero" then Cell.num 0
      else if fillMethod = "unknown" then Cell.str "Unknown"
      else if fillMethod = "empty" then Cell.str ""
      else if fillMethod = "custom" then Cell.str customText
      else Cell.str "Unknown"
  | none =>
      if fillMethod = "mode" then Cell.str "Unknown"
      else if fillMethod = "zero" then Cell.num 0
      else if fillMethod = "unknown" then Cell.str "Unknown"
      else if fillMethod = "empty" then Cell.str ""
      else if fillMethod = "custom" then Cell.str customText
      else Cell.str "Unknown"

/-- One column of `get_nan_strategy` (lines 781-819): the strategy entry
emitted for the user's method choice; `none` when the choice is not
`auto`/`drop`/`fill` (the column is then left out of the dict). -/
def get_nan_strategy_entry (method fillMethod customText : String)
    (rec : Option Recommendation) : Option StratEntry :=
  if method = "auto" then some (StratEntry.mk (some "auto") none)
  else if method = "drop" then some (StratEntry.mk (some "drop") none)
  else if method = "fill" then
    some (StratEntry.mk (some "fill") (some (resolveFillValue fillMethod customText rec)))
  else none

/-! ## Claim-side definitions (worded from the specification) -/

/-- Claim C3's score formula, written as the spec words it: base 1.0,
one missing-ratio deduction, per-issue deductions, two size bonuses,
clamped to `[0, 1]`. -/
def claimQualityScore (p : Rat) (issues : List Issue) (nRows nCols : Nat) : Rat :=
  max 0 (min 1 (1
    - (if 50 < p then 0.5 else if 20 < p then 0.3 else if 5 < p then 0.1 else 0)
    - 0.2 * (countSeverity issues "critical" : Rat)
    - 0.1 * (countSeverity issues "medium" : Rat)
    + (if 1000 < nRows then 0.05 else 0)
    + (if 5 < nCols then 0.05 else 0)))

/-- The per-column default strategy as claim C2 must be amended to read:
`keep` for a column without missing cells; fill `"N/A"` above 50%
missing; fill the rounded median for a numeric column at 0-50% missing;
fill the literal `"Unknown"` for a categorical column at 20-50% missing
and its mode (with `"Unknown"` fallback) at 0-20% missing.  Percentages
are the two-decimal-rounded ones the NaN analysis reports. -/
def claimDefaultEntry (t : Table) (col : String) : StratEntry :=
  let cells := t.getCol col
  let n := countMissing cells
  if n = 0 then StratEntry.mk (some "keep") none
  else
    let p := pyRound2 ((n : Rat) / (t.rows.length : Rat) * 100)
    if 50 < p then StratEntry.mk (some "fill") (some (Cell.str "N/A"))
    else if isNumericDtype cells then
      StratEntry.mk (some "fill") (some (Cell.num
        (if 0 < (numericValues cells).length
         then pyRound2 (ratMedian (numericValues cells)) else 0)))
    else if 20 < p then StratEntry.mk (some "fill") (some (Cell.str "Unknown"))
    else
      StratEntry.mk (some "fill") (some
        (if 0 < (cells.filter (fun c => !c.isMissing)).length
         then cellMode (cells.filter (fun c => !c.isMissing)) else Cell.str "Unknown"))

/-! ## Concrete tables used by counterexamples and witnesses -/

/-- Measure values `[10, NaN, 20]` in one category (claim C1's scenario). -/
def tScenarioMean : Table := Table.mk ["c", "v"]
  [[Cell.str "a", Cell.num 10], [Cell.str "a", Cell.missing], [Cell.str "a", Cell.num 20]]

/-- A text measure column with an unparseable cell and no missing cell:
the case on which claim C1's exclusion rule fails. -/
def tTextMeasure : Table := Table.mk ["c", "v"]
  [[Cell.str "a", Cell.str "10"], [Cell.str "a", Cell.str "abc"],
   [Cell.str "a", Cell.str "20"]]

/-- A categorical column, 30% missing, mode `"x"`: the case on which
claim C2's mode rule fails. -/
def tCat30 : Table := Table.mk ["A"]
  [[Cell.str "x"], [Cell.str "x"], [Cell.str "x"], [Cell.str "x"],
   [Cell.str "y"], [Cell.str "y"], [Cell.str "y"],
   [Cell.missing], [Cell.missing], [Cell.missing]]

/-- One column and zero rows: zero cells, so `analyze_nan_values`
divides by zero internally. -/
def tZeroRows : Table := Table.mk ["A"] []

/-- Two categories in encounter order `b`, `a` with equal aggregates:
the case on which claim C9's tie rule fails. -/
def tTie : Table := Table.mk ["c", "v"]
  [[Cell.str "b", Cell.num 1], [Cell.str "a", Cell.num 1]]

/-- A column of ten cells of which six are missing (60%), for the
critical-classification witness. -/
def cSixty : List Cell :=
  [Cell.num 1, Cell.num 2, Cell.num 3, Cell.num 4,
   Cell.missing, Cell.missing, Cell.missing, Cell.missing, Cell.missing, Cell.missing]

/-- A duplicate-rows table without missing cells, and a strategy mixing
a drop and a fill step, for the cleaning witness. -/
def tDup : Table := Table.mk ["A", "B"]
  [[Cell.num 1, Cell.str "p"], [Cell.num 1, Cell.str "p"], [Cell.num 2, Cell.str "q"]]

def stratDropFill : List (String × StratEntry) :=
  [("A", StratEntry.mk (some "drop") none),
   ("B", StratEntry.mk (some "fill") (some (Cell.str "z")))]

/-! ## Theorems -/

/-- **C3.** The quality score equals base 1.0, minus 0.5/0.3/0.1 by the
dataset missing percentage (>50 / >20 / >5), minus 0.2 per critical and
0.1 per medium issue, plus 0.05 each for >1000 rows and >5 columns,
clamped to [0, 1]; a dataset with 0% missing, 1500 rows, 6 columns and
no issues scores exactly 1.0. -/
theorem quality_score_formula (p : Rat) (issues : List Issue) (nRows nCols : Nat) :
    calculate_quality_score p issues nRows nCols = claimQualityScore p issues nRows nCols ∧
    calculate_quality_score 0 [] 1500 6 = 1 := by
  constructor
  · unfold calculate_quality_score claimQualityScore
    split_ifs <;> (refine congrArg (fun z => max 0 (min 1 z)) ?_) <;> ring
  · unfold calculate_quality_score
    norm_num [countSeverity]

/-- **C4.** The missing-value issue classification of `_analyze_column`
is mutually exclusive and evaluated in order on the column's missing
percentage: >50% gives exactly one critical issue, then >20% one medium
issue, then >0% one low issue, and 0% missing gives no missing-related
issue; never more than one. -/
theorem missing_issue_classification (cells : List Cell) :
    ((50 : Rat) < nullPercentage cells →
        missingIssues cells = [Issue.mk "high_missing" "critical"]) ∧
    ((20 : Rat) < nullPercentage cells ∧ nullPercentage cells ≤ 50 →
        missingIssues cells = [Issue.mk "medium_missing" "medium"]) ∧
    ((0 : Rat) < nullPercentage cells ∧ nullPercentage cells ≤ 20 →
        missingIssues cells = [Issue.mk "low_missing" "low"]) ∧
    (nullPercentage cells = 0 → missingIssues cells = []) ∧
    (missingIssues cells).length ≤ 1 := by
  unfold missingIssues
  split_ifs with h1 h2 h3 <;>
    refine ⟨fun h => ?_, fun h => ?_, fun h => ?_, fun h => ?_, by simp⟩ <;>
    first
      | rfl
      | (exact absurd h1 (by linarith [h.1, h.2]))
      | (exact absurd h2 (by linarith [h.1, h.2]))
      | (exact absurd h3 (by linarith [h.1, h.2]))
      | linarith

theorem missing_issue_classification_witness :
    missingIssues cSixty = [Issue.mk "high_missing" "critical"] :=
  (missing_issue_classification cSixty).1 (by decide)

/-- **C8.** For a custom fill literal on a numeric column,
`get_nan_strategy` parses the literal as a number, falls back to 0 when
parsing fails, and always emits the entry
`{method := fill, value := that literal}`. -/
theorem custom_fill_numeric_entry (s : String) (sugg : NumSuggestions) (recd : String) :
    get_nan_strategy_entry "fill" "custom" s (some (Recommendation.numeric sugg recd)) =
      some (StratEntry.mk (some "fill") (some (Cell.num ((pyFloat? s).getD 0)))) := by
  unfold get_nan_strategy_entry resolveFillValue
  cases h : pyFloat? s <;> simp [h]

/-- **C10.** A strategy entry whose method is none of `fill`, `drop`,
`keep` (for instance the `auto` method the strategy panel emits) makes
the per-column cleaning step leave the table unchanged: missing cells
stay missing, no rows are dropped, and no error arises. -/
theorem unknown_method_no_change (analysis : Option NanAnalysis)
    (strategy : List (String × StratEntry)) (t : Table) (col : String)
    (entry : StratEntry) (m : String)
    (hlook : strategy.lookup col = some entry)
    (hm : entry.method? = some m)
    (hnot : m ∉ (["fill", "drop", "keep"] : List String)) :
    applyOneCol analysis strategy t col = t := by
  have h1 : m ≠ "fill" := fun h => hnot (by simp [h])
  have h2 : m ≠ "drop" := fun h => hnot (by simp [h])
  unfold applyOneCol
  rw [hlook]
  simp [hm, h1, h2]

theorem unknown_method_no_change_witness :
    applyOneCol none [("A", StratEntry.mk (some "auto") none)] tCat30 "A" = tCat30 :=
  unknown_method_no_change none _ tCat30 "A" (StratEntry.mk (some "auto") none) "auto"
    rfl rfl (by decide)

theorem isNumericDtype_cons (a : Cell) (l : List Cell) :
    isNumericDtype (a :: l) =
      ((match a with | Cell.str _ => false | _ => true) && isNumericDtype l) := rfl

theorem coerce_map_id_of_numeric (l : List Cell) (h : isNumericDtype l = true) :
    l.map toNumericCell = l := by
  induction l with
  | nil => rfl
  | cons a l ih =>
      rw [isNumericDtype_cons, Bool.and_eq_true] at h
      cases a with
      | str s => simp at h
      | num q => simp [toNumericCell, ih h.2]
      | missing => simp [toNumericCell, ih h.2]

theorem isNumericDtype_map_toNumeric (l : List Cell) :
    isNumericDtype (l.map toNumericCell) = true := by
  induction l with
  | nil => rfl
  | cons a l ih =>
      cases a with
      | str s =>
          simp only [List.map_cons, isNumericDtype_cons, Bool.and_eq_true]
          refine ⟨?_, ih⟩
          cases h : pyFloat? s <;> simp [toNumericCell, h]
      | num q => simpa [toNumericCell, isNumericDtype_cons] using ih
      | missing => simpa [toNumericCell, isNumericDtype_cons] using ih

theorem isNumericDtype_map_fill0 (l : List Cell) :
    isNumericDtype (l.map (fillMissingCell (Cell.num 0))) = isNumericDtype l := by
  induction l with
  | nil => rfl
  | cons a l ih =>
      cases a <;>
        simp [fillMissingCell, Cell.isMissing, isNumericDtype_cons, ih]

theorem map_fill_id_of_no_missing (v : Cell) (l : List Cell)
    (h : countMissing l = 0) : l.map (fillMissingCell v) = l := by
  induction l with
  | nil => rfl
  | cons a l ih =>
      unfold countMissing at h ih
      rw [List.countP_cons] at h
      cases a with
      | missing => simp [Cell.isMissing] at h
      | num q => simp_all [fillMissingCell, Cell.isMissing]
      | str s => simp_all [fillMissingCell, Cell.isMissing]

theorem numericValues_filter_nonmissing (l : List Cell) :
    numericValues (l.filter (fun c => !c.isMissing)) = numericValues l := by
  induction l with
  | nil => rfl
  | cons a l ih =>
      cases a <;> simp [numericValues, Cell.isMissing, List.filter_cons, ih] <;>
        simpa [numericValues] using ih

/-- **C1 (amended).** Before grouping the measure column is coerced to
numeric.  For `sum` and `count` every missing measure cell — original or
coerced from an unparseable string — is treated as 0.  For `mean`,
`max`, `min` missing cells are excluded from the group computation
whenever the measure column contained a missing cell before coercion;
when it did not, the final coercion step fills coerced-missing cells
with 0 for every operation.  The aggregation operators themselves skip
missing cells, and on `[10, NaN, 20]` in one category `mean` yields 15
while `sum` yields 30. -/
theorem aggregation_nan_policy :
    (∀ op ys, op = "sum" ∨ op = "count" →
        preprocessY op ys = (ys.map toNumericCell).map (fillMissingCell (Cell.num 0))) ∧
    (∀ op ys, (op = "mean" ∨ op = "max" ∨ op = "min") → 0 < countMissing ys →
        preprocessY op ys = ys.map toNumericCell) ∧
    (∀ op cells, aggregateOp op cells =
        aggregateOp op (cells.filter (fun c => !c.isMissing))) ∧
    analyze_data_flexible tScenarioMean "c" "v" "mean" = Except.ok [(Cell.str "a", some 15)] ∧
    analyze_data_flexible tScenarioMean "c" "v" "sum" = Except.ok [(Cell.str "a", some 30)] := by
  refine ⟨?_, ?_, ?_, by decide, by decide⟩
  · intro op ys hop
    unfold preprocessY preprocessY1
    by_cases hn : 0 < countMissing ys
    · rw [if_pos hn, if_pos hop]
      by_cases hd : isNumericDtype ys = true
      · have h2 : isNumericDtype (ys.map (fillMissingCell (Cell.num 0))) = true := by
          rw [isNumericDtype_map_fill0]; exact hd
        rw [if_pos hd, if_pos h2, coerce_map_id_of_numeric ys hd]
      · have h2 : isNumericDtype
            ((ys.map toNumericCell).map (fillMissingCell (Cell.num 0))) = true := by
          rw [isNumericDtype_map_fill0]; exact isNumericDtype_map_toNumeric ys
        rw [if_neg hd, if_pos h2]
    · have h0 : countMissing ys = 0 := Nat.eq_zero_of_not_pos hn
      rw [if_neg hn]
      by_cases hd : isNumericDtype ys = true
      · rw [if_pos hd, coerce_map_id_of_numeric ys hd, map_fill_id_of_no_missing _ _ h0]
      · rw [if_neg hd]
  · intro op ys hop hn
    have hnsc : ¬(op = "sum" ∨ op = "count") := by
      rcases hop with h | h | h <;> rw [h] <;> decide
    unfold preprocessY preprocessY1
    rw [if_pos hn, if_neg hnsc]
    by_cases hd : isNumericDtype ys = true
    · rw [if_pos hd, if_pos hd, coerce_map_id_of_numeric ys hd]
    · rw [if_neg hd, if_pos (isNumericDtype_map_toNumeric ys)]
  · intro op cells
    unfold aggregateOp
    rw [numericValues_filter_nonmissing]

theorem aggregation_nan_policy_witness :
    preprocessY "sum" [Cell.missing] = [Cell.num 0] :=
  (aggregation_nan_policy.1 "sum" [Cell.missing] (Or.inl rfl)).trans (by decide)

/-- **C1 (counterexample).** On a text measure column with an
unparseable cell and no missing cell, `mean` includes the coerced cell
as 0 (result 10) instead of excluding it (which would give 15, the mean
of the parseable values) — the skip-missing rule the claim states for
`mean` does not hold here. -/
theorem aggregation_nan_policy_counterexample :
    analyze_data_flexible tTextMeasure "c" "v" "mean" = Except.ok [(Cell.str "a", some 10)] ∧
    ratMean (numericValues ((tTextMeasure.getCol "v").map toNumericCell)) = 15 := by
  constructor <;> decide

/-- **C9 (amended).** Every successful aggregation result is sorted by
aggregated value descending (missing aggregates last): consecutive rows
satisfy `aggGeRel`.  Rows with equal values keep the order the grouping
stage produced — category keys ascending — not the encounter order of
first occurrence. -/
theorem aggregation_result_sorted (t : Table) (x y op : String)
    (r : List (Cell × Option Rat))
    (h : analyze_data_flexible t x y op = Except.ok r) :
    List.Pairwise aggGeRel r := by
  have hin : analyze_data_flexible_inner t x y op = Except.ok r := by
    unfold analyze_data_flexible at h
    cases hi : analyze_data_flexible_inner t x y op with
    | ok r2 =>
        rw [hi] at h
        injection h with h2
        rw [h2]
    | error e => rw [hi] at h; cases h
  unfold analyze_data_flexible_inner at hin
  split at hin
  · cases hin
  · split at hin
    · cases hin
    · split at hin
      · cases hin
      · injection hin with h2
        rw [← h2]
        unfold aggResult
        exact List.sorted_insertionSort aggGeRel _

theorem aggregation_result_sorted_witness :
    List.Pairwise aggGeRel
      [(Cell.str "a", (some 1 : Option Rat)), (Cell.str "b", some 1)] :=
  aggregation_result_sorted tTie "c" "v" "sum" _ (by decide)

/-- **C9 (counterexample).** Two tied categories encountered in the
order `b`, `a` come out ordered `a`, `b`: ties follow the ascending
category order of the grouping stage, not first-occurrence encounter
order. -/
theorem aggregation_tie_order_counterexample :
    analyze_data_flexible tTie "c" "v" "sum" =
        Except.ok [(Cell.str "a", some 1), (Cell.str "b", some 1)] ∧
    dedupKeepFirst (tTie.getCol "c") = [Cell.str "b", Cell.str "a"] := by
  constructor <;> decide

/-- **C7 (counterexample).** On a table with zero cells the NaN-analysis
stage hits a division by zero internally and catches it, returning the
degenerate empty analysis instead of propagating the error. -/
theorem error_swallow_counterexample :
    analyze_nan_values_inner tZeroRows = Except.error PyError.zeroDivision ∧
    analyze_nan_values tZeroRows = none := by
  constructor <;> decide

/-- **C7 (amended).** Cleaning and aggregation propagate their failures
(aggregation never returns an empty success, and a failing cleaning body
surfaces as a `DataProcessingError`), but NaN analysis swallows internal
failures: on every zero-cell table it returns the empty analysis `{}`
instead of propagating the division by zero, and it returns a
fully-formed analysis only on tables with at least one cell. -/
theorem error_propagation :
    (∀ t x y op r, analyze_data_flexible t x y op = Except.ok r → r ≠ []) ∧
    (∀ t s e, clean_data_with_strategy_inner t s = Except.error e →
        clean_data_with_strategy t s = Except.error (PyError.dataProcessing
          ("Advanced data cleaning failed: " ++ pyErrMsg e))) ∧
    (∀ t, t.rows.length * t.cols.length = 0 →
        analyze_nan_values_inner t = Except.error PyError.zeroDivision ∧
        analyze_nan_values t = none) ∧
    (∀ t, 0 < t.rows.length * t.cols.length → ∃ a, analyze_nan_values t = some a) := by
  refine ⟨?_, ?_, ?_, ?_⟩
  · intro t x y op r h
    have hin : analyze_data_flexible_inner t x y op = Except.ok r := by
      unfold analyze_data_flexible at h
      cases hi : analyze_data_flexible_inner t x y op with
      | ok r2 =>
          rw [hi] at h
          injection h with h2
          rw [h2]
      | error e => rw [hi] at h; cases h
    unfold analyze_data_flexible_inner at hin
    split at hin
    · cases hin
    · split at hin
      · cases hin
      · split at hin
        · cases hin
        · next h3 =>
            injection hin with h2
            rw [← h2]
            intro hnil
            rw [hnil] at h3
            exact h3 rfl
  · intro t s e h
    unfold clean_data_with_strategy
    rw [h]
  · intro t h
    have h1 : analyze_nan_values_inner t = Except.error PyError.zeroDivision := by
      simp [analyze_nan_values_inner, h]
    exact ⟨h1, by simp [analyze_nan_values, h1, Except.toOption]⟩
  · intro t h
    cases hi : analyze_nan_values_inner t with
    | error e =>
        exfalso
        simp only [analyze_nan_values_inner] at hi
        split at hi
        · next hzero => omega
        · cases hi
    | ok a => exact ⟨a, by simp [analyze_nan_values, hi, Except.toOption]⟩

theorem error_propagation_witness :
    analyze_nan_values tZeroRows = none :=
  (error_propagation.2.2.1 tZeroRows (by decide)).2

theorem set_getD_self {α : Type} (r : List α) : ∀ (i : Nat) (d : α),
    r.set i (r.getD i d) = r := by
  induction r with
  | nil => intro i d; rfl
  | cons a r ih =>
      intro i d
      cases i with
      | zero => rfl
      | succ n =>
          show (a :: r).set (n + 1) ((a :: r).getD (n + 1) d) = a :: r
          rw [List.getD_cons_succ]
          show a :: r.set n (r.getD n d) = a :: r
          rw [ih n d]

theorem getD_mem_of_lt {α : Type} (r : List α) (i : Nat) (d : α) (h : i < r.length) :
    r.getD i d ∈ r := by
  rw [List.getD_eq_getElem r d h]
  exact List.getElem_mem h

theorem fillnaCol_id_of_no_missing (t : Table) (col : String) (v : Cell)
    (hnm : ∀ r ∈ t.rows, ∀ c ∈ r, c ≠ Cell.missing) :
    t.fillnaCol col v = t := by
  obtain ⟨cols, rows⟩ := t
  unfold Table.fillnaCol
  cases hf : cols.findIdx? (fun d => d == col) with
  | none => rfl
  | some i =>
      simp only [Table.mk.injEq, true_and]
      have hrow : ∀ r ∈ rows, r.set i (fillMissingCell v (r.getD i Cell.missing)) = r := by
        intro r hr
        by_cases hlt : i < r.length
        · have hcell := hnm r hr _ (getD_mem_of_lt r i Cell.missing hlt)
          have hfill : fillMissingCell v (r.getD i Cell.missing) = r.getD i Cell.missing := by
            unfold fillMissingCell
            cases hc : r.getD i Cell.missing with
            | missing => exact absurd hc hcell
            | num q => rfl
            | str s => rfl
          rw [hfill, set_getD_self]
        · exact List.set_eq_of_length_le (Nat.le_of_not_lt hlt)
      calc List.map (fun r => r.set i (fillMissingCell v (r.getD i Cell.missing))) rows
          = List.map id rows := List.map_congr_left (fun r hr => hrow r hr)
        _ = rows := List.map_id rows

theorem dropnaCol_id_of_no_missing (t : Table) (col : String)
    (hshape : ∀ r ∈ t.rows, r.length = t.cols.length)
    (hnm : ∀ r ∈ t.rows, ∀ c ∈ r, c ≠ Cell.missing) :
    t.dropnaCol col = t := by
  obtain ⟨cols, rows⟩ := t
  unfold Table.dropnaCol
  cases hf : cols.findIdx? (fun d => d == col) with
  | none => rfl
  | some i =>
      simp only [Table.mk.injEq, true_and]
      have hi : i < cols.length := (List.findIdx?_eq_some_iff_findIdx_eq.mp hf).1
      refine List.filter_eq_self.mpr ?_
      intro r hr
      have hlt : i < r.length := by rw [hshape r hr]; exact hi
      have hcell := hnm r hr _ (getD_mem_of_lt r i Cell.missing hlt)
      cases hc : r.getD i Cell.missing with
      | missing => exact absurd hc hcell
      | num q => simp [Cell.isMissing]
      | str s => simp [Cell.isMissing]

theorem applyOneCol_id_of_no_missing (analysis : Option NanAnalysis)
    (strategy : List (String × StratEntry)) (t : Table) (col : String)
    (hshape : ∀ r ∈ t.rows, r.length = t.cols.length)
    (hnm : ∀ r ∈ t.rows, ∀ c ∈ r, c ≠ Cell.missing) :
    applyOneCol analysis strategy t col = t := by
  unfold applyOneCol
  cases strategy.lookup col with
  | none => rfl
  | some entry =>
      show (if entry.method?.getD "fill" = "fill" then
              t.fillnaCol col
                (match entry.value? with
                  | some v => v
                  | none => resolveDefaultFill analysis t col)
            else if entry.method?.getD "fill" = "drop" then t.dropnaCol col
            else t) = t
      by_cases h1 : entry.method?.getD "fill" = "fill"
      · rw [if_pos h1]
        exact fillnaCol_id_of_no_missing t col _ hnm
      · rw [if_neg h1]
        by_cases h2 : entry.method?.getD "fill" = "drop"
        · rw [if_pos h2]
          exact dropnaCol_id_of_no_missing t col hshape hnm
        · rw [if_neg h2]

theorem foldl_fixed {α : Type} {β : Type} (f : α → β → α) (a : α) (l : List β)
    (h : ∀ b, f a b = a) : l.foldl f a = a := by
  induction l with
  | nil => rfl
  | cons b l ih => rw [List.foldl_cons, h b]; exact ih

/-- **C5.** For every strategy, cleaning a table that contains no
missing cell returns the table with identical cell values except that
fully duplicate rows are removed (first occurrence kept) — the
unconditional `drop_duplicates` — and no per-column step drops a row or
changes a cell. -/
theorem clean_without_missing_dedups_only (t : Table)
    (strat : List (String × StratEntry))
    (hr : t.rows ≠ []) (hc : t.cols ≠ [])
    (hshape : ∀ r ∈ t.rows, r.length = t.cols.length)
    (hnm : ∀ r ∈ t.rows, ∀ c ∈ r, c ≠ Cell.missing) :
    clean_data_with_strategy t (some strat) =
      Except.ok (Table.mk t.cols (dedupKeepFirst t.rows)) := by
  have hcond : ¬(t.rows.isEmpty = true ∨ t.cols.isEmpty = true) := by
    simp [List.isEmpty_iff, hr, hc]
  have hfold : t.cols.foldl (applyOneCol (analyze_nan_values t) strat) t = t :=
    foldl_fixed _ _ _
      (fun col => applyOneCol_id_of_no_missing (analyze_nan_values t) strat t col hshape hnm)
  have hin : clean_data_with_strategy_inner t (some strat) =
      Except.ok (Table.mk t.cols (dedupKeepFirst t.rows)) := by
    simp only [clean_data_with_strategy_inner, Option.getD_some]
    rw [if_neg hcond, hfold]
  unfold clean_data_with_strategy
  rw [hin]

theorem clean_without_missing_dedups_only_witness :
    clean_data_with_strategy tDup (some stratDropFill) =
      Except.ok (Table.mk tDup.cols (dedupKeepFirst tDup.rows)) :=
  clean_without_missing_dedups_only tDup stratDropFill
    (by decide) (by decide) (by decide) (by decide)

theorem getCol_eq_map (t : Table) (c : String) (hc : t.cols.contains c = true) :
    ∃ i, t.cols.findIdx? (fun d => d == c) = some i ∧
      t.getCol c = t.rows.map (fun r => r.getD i Cell.missing) := by
  have hmem : c ∈ t.cols := List.elem_iff.mp hc
  have hf : t.cols.findIdx? (fun d => d == c) =
      some (t.cols.findIdx (fun d => d == c)) :=
    List.findIdx?_eq_some_of_exists ⟨c, hmem, beq_self_eq_true c⟩
  exact ⟨_, hf, by unfold Table.getCol; rw [hf]⟩

theorem getCol_length (t : Table) (c : String) (hc : t.cols.contains c = true) :
    (t.getCol c).length = t.rows.length := by
  obtain ⟨i, _, hg⟩ := getCol_eq_map t c hc
  rw [hg, List.length_map]

theorem countMissing_map_fill (v : Cell) (hv : v.isMissing = false) (l : List Cell) :
    countMissing (l.map (fillMissingCell v)) = 0 := by
  induction l with
  | nil => rfl
  | cons a l ih =>
      unfold countMissing at ih ⊢
      rw [List.map_cons, List.countP_cons, ih]
      cases a with
      | missing => simp [show fillMissingCell v Cell.missing = v from rfl, hv]
      | num q => simp [fillMissingCell, Cell.isMissing]
      | str s => simp [fillMissingCell, Cell.isMissing]

theorem countMissing_aggXs1 (t : Table) (x : String) :
    countMissing (aggXs1 t x) = 0 := by
  unfold aggXs1
  by_cases h : 0 < countMissing (t.getCol x)
  · rw [if_pos h]; exact countMissing_map_fill (Cell.str "Unknown") rfl _
  · rw [if_neg h]; omega

theorem aggXs1_length (t : Table) (x : String) :
    (aggXs1 t x).length = (t.getCol x).length := by
  unfold aggXs1
  by_cases h : 0 < countMissing (t.getCol x)
  · rw [if_pos h, List.length_map]
  · rw [if_neg h]

theorem preprocessY1_length (op : String) (ys : List Cell) :
    (preprocessY1 op ys).length = ys.length := by
  unfold preprocessY1
  by_cases h1 : 0 < countMissing ys
  · rw [if_pos h1]
    by_cases h2 : op = "sum" ∨ op = "count"
    · rw [if_pos h2, List.length_map]
      by_cases h3 : isNumericDtype ys = true
      · rw [if_pos h3]
      · rw [if_neg h3, List.length_map]
    · rw [if_neg h2]
      by_cases h3 : isNumericDtype ys = true
      · rw [if_pos h3]
      · rw [if_neg h3, List.length_map]
  · rw [if_neg h1]

theorem preprocessY_length (op : String) (ys : List Cell) :
    (preprocessY op ys).length = ys.length := by
  unfold preprocessY
  by_cases h : isNumericDtype (preprocessY1 op ys) = true
  · rw [if_pos h, preprocessY1_length]
  · rw [if_neg h, List.length_map, List.length_map, preprocessY1_length]

theorem aggPairs_eq_zip (t : Table) (x y op : String) :
    aggPairs t x y op = (aggXs1 t x).zip (preprocessY op (t.getCol y)) := by
  unfold aggPairs
  refine List.filter_eq_self.mpr ?_
  intro p hp
  rcases p with ⟨a, b⟩
  have hmem := (List.of_mem_zip hp).1
  have hno := List.countP_eq_zero.mp (countMissing_aggXs1 t x) a hmem
  cases hA : a.isMissing with
  | false => simp [hA]
  | true => exact absurd hA hno

theorem aggPairs_length (t : Table) (x y op : String)
    (hx : t.cols.contains x = true) (hy : t.cols.contains y = true) :
    (aggPairs t x y op).length = t.rows.length := by
  rw [aggPairs_eq_zip, List.length_zip, aggXs1_length, getCol_length t x hx,
    preprocessY_length, getCol_length t y hy, min_self]

theorem dedupKeepFirst_ne_nil {α : Type} [DecidableEq α] (l : List α) (h : l ≠ []) :
    dedupKeepFirst l ≠ [] := by
  cases l with
  | nil => exact absurd rfl h
  | cons a l =>
      show dedupSeen [] (a :: l) ≠ []
      unfold dedupSeen
      simp

theorem insertionSort_ne_nil {α : Type} (r : α → α → Prop) [DecidableRel r]
    (l : List α) (h : l ≠ []) : l.insertionSort r ≠ [] := by
  intro hnil
  have hlen := (List.perm_insertionSort r l).length_eq
  rw [hnil] at hlen
  exact h (List.length_eq_zero.mp hlen.symm)

/-- **C6.** If both selected columns exist, aggregating a cleaned table
with zero rows fails — internally with the empty-dataset
`EmptyDataError`, surfaced wrapped as a `DataProcessingError` — rather
than returning an empty success; and whenever the table has at least
one row the aggregation succeeds with at least one group, so a
zero-group outcome can only arise from a zero-row table. -/
theorem aggregation_empty_result (t : Table) (x y op : String)
    (hx : t.cols.contains x = true) (hy : t.cols.contains y = true) :
    (t.rows = [] →
        analyze_data_flexible_inner t x y op =
          Except.error (PyError.emptyData "Analysis resulted in empty dataset") ∧
        analyze_data_flexible t x y op =
          Except.error (PyError.dataProcessing
            "Flexible analysis failed: Analysis resulted in empty dataset")) ∧
    (t.rows ≠ [] → ∃ r, analyze_data_flexible t x y op = Except.ok r ∧ r ≠ []) := by
  constructor
  · intro hrows
    have hpairs : aggPairs t x y op = [] := by
      refine List.length_eq_zero.mp ?_
      rw [aggPairs_length t x y op hx hy, hrows]
      rfl
    have hres : aggResult t x y op = [] := by
      unfold aggResult groupKeys
      rw [hpairs]
      rfl
    have hinner : analyze_data_flexible_inner t x y op =
        Except.error (PyError.emptyData "Analysis resulted in empty dataset") := by
      unfold analyze_data_flexible_inner
      simp [hx, hy, hres, List.elem_iff.mp hx, List.elem_iff.mp hy]
    refine ⟨hinner, ?_⟩
    unfold analyze_data_flexible
    rw [hinner]
    rfl
  · intro hrows
    have hpne : aggPairs t x y op ≠ [] := by
      intro h0
      have := aggPairs_length t x y op hx hy
      rw [h0] at this
      exact hrows (List.length_eq_zero.mp this.symm)
    have hkeys : groupKeys (aggPairs t x y op) ≠ [] := by
      unfold groupKeys
      refine insertionSort_ne_nil _ _ (dedupKeepFirst_ne_nil _ ?_)
      rw [Ne, List.map_eq_nil_iff]
      exact hpne
    have hres : aggResult t x y op ≠ [] := by
      unfold aggResult
      refine insertionSort_ne_nil _ _ ?_
      rw [Ne, List.map_eq_nil_iff]
      exact hkeys
    have hinner : analyze_data_flexible_inner t x y op =
        Except.ok (aggResult t x y op) := by
      unfold analyze_data_flexible_inner
      simp [hx, hy, List.isEmpty_eq_false.mpr hres,
        List.elem_iff.mp hx, List.elem_iff.mp hy]
    refine ⟨aggResult t x y op, ?_, hres⟩
    unfold analyze_data_flexible
    rw [hinner]

theorem aggregation_empty_result_witness :
    analyze_data_flexible tZeroRows "A" "A" "sum" =
      Except.error (PyError.dataProcessing
        "Flexible analysis failed: Analysis resulted in empty dataset") :=
  ((aggregation_empty_result tZeroRows "A" "A" "sum" (by decide) (by decide)).1 rfl).2

theorem numSuggestions_get_median (s : NumSuggestions) : s.get "median" = s.median := rfl

theorem lookup_map_eq_none {β : Type} (cs : List String) (f : String → β) (c : String)
    (h : c ∉ cs) : (cs.map (fun d => (d, f d))).lookup c = none := by
  induction cs with
  | nil => rfl
  | cons a cs ih =>
      have hne : (c == a) = false := by
        refine beq_eq_false_iff_ne.mpr ?_
        intro hEq
        exact h (hEq ▸ List.mem_cons_self a cs)
      rw [List.map_cons]
      simp only [List.lookup, hne]
      exact ih (fun hm => h (List.mem_cons_of_mem a hm))

theorem lookup_filter_map {β : Type} (cs : List String) (p : String → Bool)
    (f : String → β) (c : String) (hnd : cs.Nodup) (hmem : c ∈ cs) :
    ((cs.filter p).map (fun d => (d, f d))).lookup c =
      if p c then some (f c) else none := by
  induction cs with
  | nil => cases hmem
  | cons a cs ih =>
      rw [List.nodup_cons] at hnd
      rcases List.mem_cons.mp hmem with hEq | hm
      · subst hEq
        rw [List.filter_cons]
        by_cases hp : p c = true
        · rw [if_pos hp, if_pos hp, List.map_cons]
          simp [List.lookup, beq_self_eq_true]
        · rw [if_neg hp, if_neg hp, lookup_map_eq_none]
          intro hcf
          exact hnd.1 (List.mem_of_mem_filter hcf)
      · have hne : (c == a) = false := by
          refine beq_eq_false_iff_ne.mpr ?_
          intro hEq
          subst hEq
          exact hnd.1 hm
        rw [List.filter_cons]
        by_cases hp : p a = true
        · rw [if_pos hp, List.map_cons]
          simp only [List.lookup, hne]
          exact ih hnd.2 hm
        · rw [if_neg hp]
          exact ih hnd.2 hm

theorem nanColumnsWithNan_eq (t : Table) (hr : t.rows ≠ []) (hc : t.cols ≠ []) :
    nanColumnsWithNan (analyze_nan_values t) =
      (t.cols.filter (fun c => 0 < countMissing (t.getCol c))).map (fun c =>
        (c, ColNanInfo.mk (countMissing (t.getCol c))
          (pyRound2 ((countMissing (t.getCol c) : Rat) / (t.rows.length : Rat) * 100)))) := by
  have hne : ¬(t.rows.length * t.cols.length = 0) := by
    refine Nat.mul_ne_zero ?_ ?_ <;>
      simp [List.length_eq_zero, hr, hc]
  simp [analyze_nan_values, analyze_nan_values_inner, hne, Except.toOption,
    nanColumnsWithNan]

theorem nanRecommendations_eq (t : Table) (hr : t.rows ≠ []) (hc : t.cols ≠ []) :
    nanRecommendations (analyze_nan_values t) =
      (t.cols.filter (fun c => 0 < countMissing (t.getCol c))).map (fun c =>
        (c, colRecommendation (t.getCol c))) := by
  have hne : ¬(t.rows.length * t.cols.length = 0) := by
    refine Nat.mul_ne_zero ?_ ?_ <;>
      simp [List.length_eq_zero, hr, hc]
  simp [analyze_nan_values, analyze_nan_values_inner, hne, Except.toOption,
    nanRecommendations]

/-- **C2 (amended).** The default strategy assigns, per column: `keep`
when the column has no missing cell; fill with the sentinel `"N/A"` when
the (two-decimal-rounded) missing percentage exceeds 50; for a numeric
column at 0-50% missing, fill with the rounded median of its non-missing
values (0 if there are none); for a categorical column, fill with the
literal `"Unknown"` at 20-50% missing and with its mode (falling back to
`"Unknown"`) only at 0-20% missing. -/
theorem default_strategy_cases (t : Table) (hnd : t.cols.Nodup) (hr : t.rows ≠ []) :
    get_default_nan_strategy t (analyze_nan_values t) =
      t.cols.map (fun col => (col, claimDefaultEntry t col)) := by
  unfold get_default_nan_strategy
  refine List.map_congr_left ?_
  intro col hcol
  have hc : t.cols ≠ [] := by
    intro h
    rw [h] at hcol
    cases hcol
  have hcw := nanColumnsWithNan_eq t hr hc
  have hrec := nanRecommendations_eq t hr hc
  simp only [Prod.mk.injEq, true_and]
  by_cases hn : 0 < countMissing (t.getCol col)
  · have h1 : (nanColumnsWithNan (analyze_nan_values t)).lookup col =
        some (ColNanInfo.mk (countMissing (t.getCol col))
          (pyRound2 ((countMissing (t.getCol col) : Rat) / (t.rows.length : Rat) * 100))) := by
      rw [hcw, lookup_filter_map _ _ _ _ hnd hcol, if_pos (decide_eq_true hn)]
    have h2 : (nanRecommendations (analyze_nan_values t)).lookup col =
        some (colRecommendation (t.getCol col)) := by
      rw [hrec, lookup_filter_map _ _ _ _ hnd hcol, if_pos (decide_eq_true hn)]
    simp only [defaultEntryFor, h1, h2]
    unfold claimDefaultEntry
    rw [if_neg (by omega : ¬countMissing (t.getCol col) = 0)]
    by_cases h50 : 50 < pyRound2
        ((countMissing (t.getCol col) : Rat) / (t.rows.length : Rat) * 100)
    · rw [if_pos h50, if_pos h50]
    · rw [if_neg h50, if_neg h50]
      by_cases hdt : isNumericDtype (t.getCol col) = true
      · rw [if_pos hdt]
        by_cases hv : 0 < (numericValues (t.getCol col)).length
        · have hcr : colRecommendation (t.getCol col) = Recommendation.numeric
              ⟨pyRound2 (ratMean (numericValues (t.getCol col))),
               pyRound2 (ratMedian (numericValues (t.getCol col))),
               ratMode (numericValues (t.getCol col)),
               ((numericValues (t.getCol col)).min?).getD 0,
               ((numericValues (t.getCol col)).max?).getD 0⟩ "median" := by
            simp [colRecommendation, hdt, hv]
          rw [if_pos hv]
          by_cases h20 : 20 < pyRound2
              ((countMissing (t.getCol col) : Rat) / (t.rows.length : Rat) * 100)
          · rw [if_pos h20]
            simp only [hcr, numSuggestions_get_median]
          · rw [if_neg h20]
            simp only [hcr, numSuggestions_get_median]
        · have hcr : colRecommendation (t.getCol col) =
              Recommendation.numeric ⟨0, 0, 0, 0, 0⟩ "median" := by
            simp [colRecommendation, hdt, hv]
          rw [if_neg hv]
          by_cases h20 : 20 < pyRound2
              ((countMissing (t.getCol col) : Rat) / (t.rows.length : Rat) * 100)
          · rw [if_pos h20]
            simp only [hcr, numSuggestions_get_median]
          · rw [if_neg h20]
            simp only [hcr, numSuggestions_get_median]
      · have hcr : colRecommendation (t.getCol col) = Recommendation.categorical
            (if 0 < ((t.getCol col).filter (fun c => !c.isMissing)).length
             then cellMode ((t.getCol col).filter (fun c => !c.isMissing))
             else Cell.str "Unknown")
            (if 0 < ((t.getCol col).filter (fun c => !c.isMissing)).length
             then (dedupKeepFirst ((t.getCol col).filter (fun c => !c.isMissing))).length
             else 0)
            (if (if 0 < ((t.getCol col).filter (fun c => !c.isMissing)).length
                 then (dedupKeepFirst ((t.getCol col).filter (fun c => !c.isMissing))).length
                 else 0) < 20 then "mode" else "unknown") := by
          simp [colRecommendation, hdt]
        rw [if_neg hdt]
        by_cases h20 : 20 < pyRound2
            ((countMissing (t.getCol col) : Rat) / (t.rows.length : Rat) * 100)
        · rw [if_pos h20, if_pos h20]
          simp only [hcr]
        · rw [if_neg h20, if_neg h20]
          simp only [hcr]
  · have h1 : (nanColumnsWithNan (analyze_nan_values t)).lookup col = none := by
      rw [hcw, lookup_filter_map _ _ _ _ hnd hcol,
        if_neg (by simpa using hn)]
    simp only [defaultEntryFor, h1]
    unfold claimDefaultEntry
    rw [if_pos (Nat.eq_zero_of_not_pos hn)]

theorem default_strategy_cases_witness :
    get_default_nan_strategy tCat30 (analyze_nan_values tCat30) =
      tCat30.cols.map (fun col => (col, claimDefaultEntry tCat30 col)) :=
  default_strategy_cases tCat30 (by decide) (by decide)

/-- **C2 (counterexample).** A categorical column with 30% missing cells
and mode `"x"` gets the default fill value `"Unknown"`, not its mode:
the recommended-statistic rule the claim states for 20-50% missing
categorical columns does not hold. -/
theorem default_strategy_counterexample :
    get_default_nan_strategy tCat30 (analyze_nan_values tCat30) =
      [("A", StratEntry.mk (some "fill") (some (Cell.str "Unknown")))] ∧
    cellMode ((tCat30.getCol "A").filter (fun c => !c.isMissing)) = Cell.str "x" ∧
    pyRound2 ((countMissing (tCat30.getCol "A") : Rat) /
      ((tCat30.rows.length : Nat) : Rat) * 100) = 30 := by
  refine ⟨by decide, by decide, by decide⟩
